import Mathlib

/-!
Verification of the FormulatePDF proposal-PDF layout core.

Shallow embedding of the PDF-generation core of the FormulatePDF repository:
the financial projection calculator, the word-wrap / justification text
layout engine, the table renderer, the page-overflow controller and the
document assembler, as implemented in `src/server/routes.ts` (the current
route), `src/unnamed/part_000` (the justified-text draft of the same route)
and `src/client/src/pages/home.tsx` (the client-side calculator).

JS strings are modelled as `List Char`, JS numbers as `ℚ` (exact
arithmetic in place of IEEE doubles), and drawing calls as an explicit
list of `PdfOp` operations per page.
-/

set_option autoImplicit false
set_option linter.unusedVariables false

/-- JS strings modelled as lists of characters. -/
abbrev Str := List Char

/-- Coerce a Lean string literal to the `Str` model. -/
def s2c (s : String) : Str := s.data

/-- Characters matched by the JS regexp `\s` (ASCII subset; the repository
only feeds ASCII or sanitized text into the layout engine). -/
def jsWhitespace (c : Char) : Bool :=
  c = ' ' || c = '\t' || c = '\n' || c = '\r' || c = '\x0b' || c = '\x0c'

/-- One step of collapsing whitespace runs: the flag records whether the
previous character was whitespace (models `replace(/\s+/g, " ")`). -/
def collapseWsAux : List Char → Bool → List Char
  | [], _ => []
  | c :: rest, prevWs =>
    if jsWhitespace c then
      if prevWs then collapseWsAux rest true
      else ' ' :: collapseWsAux rest true
    else c :: collapseWsAux rest false

/-- Remove leading and trailing whitespace (models `String.prototype.trim`). -/
def trimWs (l : Str) : Str :=
  ((l.dropWhile jsWhitespace).reverse.dropWhile jsWhitespace).reverse

/-- `text.replace(/\s+/g, " ").trim()` as performed by `drawJustifiedText`
in `src/unnamed/part_000` before wrapping. -/
def normalizeWs (l : Str) : Str := trimWs (collapseWsAux l false)

/-- Accumulator-based splitting on a separator character, with JS
`String.prototype.split` semantics (empty pieces are kept, the empty
string splits to `[""]`). -/
def splitChAux (sep : Char) : List Char → List Char → List Str
  | [], acc => [acc.reverse]
  | c :: rest, acc =>
    if c = sep then acc.reverse :: splitChAux sep rest []
    else splitChAux sep rest (c :: acc)

/-- JS `str.split(sep)` for a one-character separator. -/
def splitCh (sep : Char) (l : Str) : List Str := splitChAux sep l []

/-- JS `str.split(' ')`. -/
def splitSp (l : Str) : List Str := splitCh ' ' l

/-- JS `array.join(" ")`. -/
def joinSpace : List Str → Str
  | [] => []
  | [s] => s
  | s :: s' :: rest => s ++ ' ' :: joinSpace (s' :: rest)

/-- A sample font-width measure (each character one unit wide); stands in
for `font.widthOfTextAtSize` in concrete evaluations. -/
def lenW : Str → ℚ := fun s => (s.length : ℚ)

/-- One drawing operation recorded on a page: the `pdf-lib` calls `drawText`,
`drawRectangle`, `drawLine` and `drawImage` calls. -/
inductive PdfOp
  | text (s : Str) (x y size : ℚ) (bold : Bool)
  | rect (x y w h : ℚ)
  | line (x1 y1 x2 y2 : ℚ)
  | image (x y w h : ℚ)
deriving DecidableEq, Repr

/-- Whether an operation draws an image. -/
def PdfOp.isImage : PdfOp → Bool
  | .image .. => true
  | _ => false

/-- Whether an operation draws a rectangle. -/
def PdfOp.isRect : PdfOp → Bool
  | .rect .. => true
  | _ => false

/-- Whether an operation draws a vertical line (`x1 = x2`). -/
def PdfOp.isVertLine : PdfOp → Bool
  | .line x1 _ x2 _ => if x1 = x2 then true else false
  | _ => false

/-- Whether an operation draws a horizontal line (`y1 = y2`). -/
def PdfOp.isHorizLine : PdfOp → Bool
  | .line _ y1 _ y2 => if y1 = y2 then true else false
  | _ => false

/-- One physical page: the list of drawing operations in issue order. -/
structure Page where
  ops : List PdfOp
deriving DecidableEq, Repr

/-- The validated proposal record driving one document generation
(`ProposalForm` of the shared schema). -/
structure Proposal where
  clientName : Str
  clientAddress : Str
  proposalDate : Str
  investmentAmount : ℚ
  targetReturn : ℚ
  timeHorizon : ℚ
  year1Dividend : ℚ
  year2Dividend : ℚ
  year3Dividend : ℚ

namespace Routes

/-- Derived projection figures, as computed by the PDF route in
`src/server/routes.ts` lines 49-64. -/
structure Projections where
  sharesIssued : ℚ
  year1Return : ℚ
  year2Return : ℚ
  year3Return : ℚ
  year1Value : ℚ
  year2Value : ℚ
  year3Value : ℚ
  year1Growth : ℚ
  year2Growth : ℚ
  year3Growth : ℚ
  targetValue : ℚ
  totalProfit : ℚ

/-- The projection calculation of `src/server/routes.ts` lines 49-64, in
source order (`annualizedReturn` uses `Math.pow` with a fractional
exponent and is carried separately as an extra input where needed). -/
def computeProjections (p : Proposal) : Projections :=
  let sharesIssued := p.investmentAmount / 8
  let year1Return := sharesIssued * p.year1Dividend
  let year2Return := sharesIssued * p.year2Dividend
  let year3Return := sharesIssued * p.year3Dividend
  let year1Value := p.investmentAmount + year1Return
  let year2Value := year1Value + year2Return
  let year3Value := year2Value + year3Return
  let year1Growth := (year1Return / p.investmentAmount) * 100
  let year2Growth := (year2Return / year1Value) * 100
  let year3Growth := (year3Return / year2Value) * 100
  let targetValue := p.investmentAmount * (1 + p.targetReturn / 100)
  let totalProfit := targetValue - p.investmentAmount
  ⟨sharesIssued, year1Return, year2Return, year3Return,
   year1Value, year2Value, year3Value,
   year1Growth, year2Growth, year3Growth, targetValue, totalProfit⟩

/-- The approximate per-character width `fontSize * 0.6` used by `wrapText`
in `src/server/routes.ts` line 240. -/
def charWidth (fontSize : ℚ) : ℚ := fontSize * (6 / 10)

/-- The width measure of `wrapText`: `testLine.length * charWidth`. -/
def strWidth (fontSize : ℚ) (s : Str) : ℚ := (s.length : ℚ) * charWidth fontSize

/-- The word-accumulation loop of `wrapText` (`src/server/routes.ts` lines
242-256): greedy fill of `currentLine`; an overwide word is pushed alone
when the current line is empty, otherwise the current line is closed
first. -/
def wrapTextAux (fontSize maxWidth : ℚ) : List Str → Str → List Str
  | [], cur => if cur = [] then [] else [cur]
  | word :: rest, cur =>
    let testLine := if cur = [] then word else cur ++ ' ' :: word
    if strWidth fontSize testLine > maxWidth then
      if cur = [] then testLine :: wrapTextAux fontSize maxWidth rest []
      else cur :: wrapTextAux fontSize maxWidth rest word
    else wrapTextAux fontSize maxWidth rest testLine

/-- `wrapText(text, maxWidth, fontSize)` from `src/server/routes.ts` lines
236-257: splits on single spaces (no whitespace normalization) and wraps
greedily against the character-count width estimate. -/
def wrapText (text : Str) (maxWidth fontSize : ℚ) : List Str :=
  wrapTextAux fontSize maxWidth (splitSp text) []

end Routes

namespace Part000

/-- The rendered width of a candidate line of words, as measured by
`drawJustifiedText` in `src/unnamed/part_000`:
`font.widthOfTextAtSize(testLine.join(" "), fontSize)`, with the font
metric at the fixed size abstracted as `fw`. -/
def lineWidth (fw : Str → ℚ) (ws : List Str) : ℚ := fw (joinSpace ws)

/-- The greedy wrapping loop of `drawJustifiedText`
(`src/unnamed/part_000` lines 68-78): break before a word only when the
extended line overflows and the current line is non-empty. -/
def wrapWordsAux (fw : Str → ℚ) (maxWidth : ℚ) : List Str → List Str → List (List Str)
  | [], cur => if cur = [] then [] else [cur]
  | word :: rest, cur =>
    if lineWidth fw (cur ++ [word]) > maxWidth ∧ cur ≠ [] then
      cur :: wrapWordsAux fw maxWidth rest [word]
    else wrapWordsAux fw maxWidth rest (cur ++ [word])

/-- The wrapping phase of `drawJustifiedText`: normalize whitespace, split
on single spaces, then wrap greedily. -/
def wrapLines (fw : Str → ℚ) (maxWidth : ℚ) (text : Str) : List (List Str) :=
  wrapWordsAux fw maxWidth (splitSp (normalizeWs text)) []

/-- Word placement of a justified line: each word is placed at the running
cursor, which then advances by the word width plus the (uniform) gap
(`src/unnamed/part_000` lines 95-101). -/
def placeWords (fw : Str → ℚ) (gap : ℚ) : List Str → ℚ → List (Str × ℚ)
  | [], _ => []
  | w :: rest, cx => (w, cx) :: placeWords fw gap rest (cx + fw w + gap)

/-- `extraSpacePerGap` of `src/unnamed/part_000` lines 89-93: the shortfall of the line distributed evenly over the inter-word gaps. -/
def extraSpacePerGap (fw : Str → ℚ) (maxWidth : ℚ) (ws : List Str) : ℚ :=
  let lineW := lineWidth fw ws
  let normalSpaceWidth := fw [' ']
  let totalNormalSpaces := normalSpaceWidth * ((ws.length : ℚ) - 1)
  let totalWordWidth := lineW - totalNormalSpaces
  (maxWidth - totalWordWidth - totalNormalSpaces) / ((ws.length : ℚ) - 1)

/-- The justified placement of one line: word k sits at
`x + Σ (width + normal space + extra gap)` over the preceding words. -/
def justifyPositions (fw : Str → ℚ) (x maxWidth : ℚ) (ws : List Str) : List (Str × ℚ) :=
  placeWords fw (fw [' '] + extraSpacePerGap fw maxWidth ws) ws x

/-- Rendering of a single wrapped line (`src/unnamed/part_000` lines
80-102): last lines and single-word lines are drawn naturally at `x`,
every other line is justified. -/
def drawLine (fw : Str → ℚ) (x y maxWidth fontSize : ℚ) (ws : List Str) (isLast : Bool) :
    List PdfOp :=
  if isLast = true ∨ ws.length = 1 then
    [PdfOp.text (joinSpace ws) x y fontSize false]
  else
    (justifyPositions fw x maxWidth ws).map fun q => PdfOp.text q.1 q.2 y fontSize false

/-- Rendering of the wrapped lines in order, advancing the cursor by
`lineSpacing` per line (`src/unnamed/part_000` lines 80-104). -/
def renderLines (fw : Str → ℚ) (x maxWidth fontSize lineSpacing : ℚ) :
    List (List Str) → ℚ → List PdfOp × ℚ
  | [], y => ([], y)
  | [ws], y => (drawLine fw x y maxWidth fontSize ws true, y - lineSpacing)
  | ws :: ws' :: rest, y =>
    let ops := drawLine fw x y maxWidth fontSize ws false
    let r := renderLines fw x maxWidth fontSize lineSpacing (ws' :: rest) (y - lineSpacing)
    (ops ++ r.1, r.2)

/-- `drawJustifiedText(page, text, x, y, maxWidth, font, fontSize,
lineSpacing)` from `src/unnamed/part_000` lines 53-107: returns the draw
operations and the updated cursor. -/
def drawJustifiedText (fw : Str → ℚ) (text : Str) (x y maxWidth fontSize lineSpacing : ℚ) :
    List PdfOp × ℚ :=
  renderLines fw x maxWidth fontSize lineSpacing (wrapLines fw maxWidth text) y

/-- The x + width right edge of the last placed word of a justified line
(the rendered extent of the line). -/
def rightEdge (fw : Str → ℚ) : List (Str × ℚ) → ℚ
  | [] => 0
  | [q] => q.2 + fw q.1
  | _ :: q :: rest => rightEdge fw (q :: rest)

/-- Footer block applied to every content page by `addFooterToPage` in
`src/unnamed/part_000` lines 120-130 (left margin 50, base y 40). -/
def footerOps : List PdfOp :=
  [PdfOp.text (s2c "Opian Capital (Pty) Ltd is Licensed as a Juristic Representative with FSP No: 50974") 50 70 8 false,
   PdfOp.text (s2c "Company Registration Number: 2022/272376/07 FSP No: 50974") 50 60 8 false,
   PdfOp.text (s2c "Company Address: 260 Uys Krige Drive, Loevenstein, Bellville, 7530, Western Cape") 50 50 8 false,
   PdfOp.text (s2c "Tel: 0861 263 346 | Email: info@opianfsgroup.com | Website: www.opianfsgroup.com") 50 40 8 false]

/-- Header logo applied by `addLogoToPage` in `src/unnamed/part_000` lines
143-158: drawn at the top right only when the logo image loaded. -/
def logoOps : Option Unit → List PdfOp
  | some _ => [PdfOp.image (595.28 - 160 - 40) 740 160 53]
  | none => []

/-- `checkPageOverflow(currentPage, yPos, minSpaceNeeded)` from
`src/unnamed/part_000` lines 110-118: below the threshold a fresh
decorated page is allocated and the cursor resets to 750; otherwise page
and cursor pass through unchanged. The document is the list of pages
allocated so far and the current page is its index. -/
def checkPageOverflow (doc : List Page) (cur : Nat) (yPos minSpaceNeeded : ℚ)
    (logo : Option Unit) : List Page × Nat × ℚ :=
  if yPos < minSpaceNeeded then
    (doc ++ [⟨footerOps ++ logoOps logo⟩], doc.length, 750)
  else (doc, cur, yPos)

end Part000

namespace Client

/-- Derived figures of the client-side calculator
(`calculateInvestmentProjections` in `src/client/src/pages/home.tsx`).
`annualizedReturn` (a `Math.pow` float) is omitted; no claim depends on
it. -/
structure Calculations where
  targetValue : ℚ
  totalProfit : ℚ
  calculatedTargetReturn : ℚ
  sharesIssued : ℚ
  year1Return : ℚ
  year1Value : ℚ
  year1Growth : ℚ
  year2Return : ℚ
  year2Value : ℚ
  year2Growth : ℚ
  year3Return : ℚ
  year3Value : ℚ
  year3Growth : ℚ

/-- `calculateInvestmentProjections` from `src/client/src/pages/home.tsx`
lines 89-117: the dividend-driven path where `targetValue` is the
compounded `year3Value`. Zero-denominator guards follow the source. -/
def calculateInvestmentProjections (p : Proposal) : Calculations :=
  let investmentAmount := p.investmentAmount
  let sharesIssued := investmentAmount / 8
  let year1Return := sharesIssued * p.year1Dividend
  let year1Value := investmentAmount + year1Return
  let year1Growth := if investmentAmount > 0 then (year1Return / investmentAmount) * 100 else 0
  let year2Return := sharesIssued * p.year2Dividend
  let year2Value := year1Value + year2Return
  let year2Growth := if year1Value > 0 then (year2Return / year1Value) * 100 else 0
  let year3Return := sharesIssued * p.year3Dividend
  let year3Value := year2Value + year3Return
  let year3Growth := if year2Value > 0 then (year3Return / year2Value) * 100 else 0
  let targetValue := year3Value
  let totalProfit := targetValue - investmentAmount
  let calculatedTargetReturn :=
    if investmentAmount > 0 then ((targetValue - investmentAmount) / investmentAmount) * 100 else 0
  ⟨targetValue, totalProfit, calculatedTargetReturn, sharesIssued,
   year1Return, year1Value, year1Growth,
   year2Return, year2Value, year2Growth,
   year3Return, year3Value, year3Growth⟩

end Client

namespace Routes

/-- Digit-grouping step on a reversed digit string: a comma after every
three digits (for `Number.prototype.toLocaleString`). -/
def chunk3 : List Char → List Char
  | a :: b :: c :: d :: rest => a :: b :: c :: ',' :: chunk3 (d :: rest)
  | l => l

/-- Left-pad a digit string with zeros to length `k`. -/
def padZeros (k : Nat) (ds : List Char) : List Char :=
  List.replicate (k - ds.length) '0' ++ ds

/-- Drop trailing zero digits of a fractional part. -/
def dropTrailingZeros (ds : List Char) : List Char :=
  (ds.reverse.dropWhile (· = '0')).reverse

/-- Models `Number.prototype.toLocaleString()` for the values the route formats:
thousands grouping on the integer part and up to three fractional digits
(rounded to the third, trailing zeros dropped). -/
def toLocale (q : ℚ) : Str :=
  let neg := q < 0
  let a := if neg then -q else q
  let n0 := a.floor.toNat
  let m0 := ((a - (n0 : ℚ)) * 1000 + 1 / 2).floor.toNat
  let n := if m0 ≥ 1000 then n0 + 1 else n0
  let m := if m0 ≥ 1000 then 0 else m0
  let intPart := (chunk3 (Nat.toDigits 10 n).reverse).reverse
  let fracPart := dropTrailingZeros (padZeros 3 (Nat.toDigits 10 m))
  (if neg then ['-'] else []) ++ intPart ++ (if fracPart = [] then [] else '.' :: fracPart)

/-- Models `Number.prototype.toFixed(d)` (rounded, `d` fixed decimals). -/
def toFixed (d : Nat) (q : ℚ) : Str :=
  let neg := q < 0
  let a := if neg then -q else q
  let n := (a * (10 : ℚ) ^ d + 1 / 2).floor.toNat
  let ds := padZeros (d + 1) (Nat.toDigits 10 n)
  let intPart := ds.take (ds.length - d)
  let fracPart := ds.drop (ds.length - d)
  (if neg then ['-'] else []) ++ intPart ++ (if d = 0 then [] else '.' :: fracPart)

/-- Models `Number.prototype.toString` inside template literals, up to six
fractional digits (exact for the integer-valued inputs the route uses). -/
def numToStr (q : ℚ) : Str :=
  let neg := q < 0
  let a := if neg then -q else q
  let n := a.floor.toNat
  let fracPart :=
    dropTrailingZeros (padZeros 6 (Nat.toDigits 10 (((a - (n : ℚ)) * 1000000).floor.toNat)))
  (if neg then ['-'] else []) ++ Nat.toDigits 10 n ++
    (if fracPart = [] then [] else '.' :: fracPart)

/-- Per-character replacements of `sanitizeText`
(`src/server/routes.ts` lines 353-363). -/
def sanitizeChar : Char → Str
  | '➤' => ['•']
  | '🔘' => ['•']
  | '☑' => ['•']
  | '✓' => ['•']
  | '📞' => s2c "Tel:"
  | '✉' => s2c "Email:"
  | '🌐' => s2c "Website:"
  | c => [c]

/-- `sanitizeText`: replace a few known symbols, then strip every
remaining non-ASCII character. -/
def sanitizeText (s : Str) : Str :=
  (s.flatMap sanitizeChar).filter fun c => c.toNat ≤ 127

/-- Full-width content area of the route (`595.28 - 40 - 40`). -/
def contentWidth : ℚ := 595.28 - 40 - 40

def fspLine : Str := s2c "Opian Capital (Pty) Ltd is Licensed as a Juristic Representative with FSP No: 50974"

def regLine : Str := s2c "Company Registration Number: 2022/272376/07 FSP No: 50974"

def addrLine : Str := s2c "Company Address: 260 Uys Krige Drive, Loevenstein, Bellville, 7530, Western Cape"

def telLineI : Str := s2c "Tel: 0861 263 346 I Email: info@opianfsgroup.com I Website: www.opianfsgroup.com"

def telLineP : Str := s2c "Tel: 0861 263 346 | Email: info@opianfsgroup.com | Website: www.opianfsgroup.com"

/-- `addFooterToPage` of `src/server/routes.ts` lines 189-224 (left margin
40, base y 40, size 8). -/
def addFooterOps : List PdfOp :=
  [PdfOp.text fspLine 40 70 8 false,
   PdfOp.text regLine 40 60 8 false,
   PdfOp.text addrLine 40 50 8 false,
   PdfOp.text telLineP 40 40 8 false]

/-- The trailing footer block drawn on the three content pages at the end
of the route (`src/server/routes.ts` lines 946-978; x 165, size 7). -/
def endFooterOps : List PdfOp :=
  [PdfOp.text fspLine 165 50 7 false,
   PdfOp.text regLine 165 40 7 false,
   PdfOp.text addrLine 165 30 7 false,
   PdfOp.text telLineP 165 20 7 false]

/-- The text-only cover block used when no cover image loaded
(`src/server/routes.ts` lines 127-186). -/
def textOnlyCoverOps : List PdfOp :=
  [PdfOp.text (s2c "OPIAN CAPITAL") 40 800 24 true,
   PdfOp.text (s2c "PRIVATE EQUITY PROPOSAL") 40 770 18 true,
   PdfOp.text fspLine 40 745 10 false,
   PdfOp.text regLine 40 730 10 false,
   PdfOp.text addrLine 40 715 10 false,
   PdfOp.text telLineI 40 700 10 false]

/-- The cover page (`src/server/routes.ts` lines 101-186): a supplied
cover image (given by its natural width and height) is scaled to fit and
centered; otherwise the text-only company header block is drawn. -/
def coverPageOps : Option (ℚ × ℚ) → List PdfOp
  | some wh =>
    let scaleX := 595.28 / wh.1
    let scaleY := 841.89 / wh.2
    let scale := min scaleX scaleY
    let sw := wh.1 * scale
    let sh := wh.2 * scale
    [PdfOp.image ((595.28 - sw) / 2) ((841.89 - sh) / 2) sw sh]
  | none => textOnlyCoverOps

/-- Draw a list of lines top-down at a fixed x, advancing the cursor by
`step` per line (the `lines.forEach` pattern of the route). -/
def textLinesAt (x size step : ℚ) : List Str → ℚ → List PdfOp × ℚ
  | [], y => ([], y)
  | l :: rest, y =>
    let r := textLinesAt x size step rest (y - step)
    (PdfOp.text l x y size false :: r.1, r.2)

/-- The guarded forEach used for the conclusion and thank-you paragraphs
on page 3 (`src/server/routes.ts` lines 805-816, 823-834): a line is
drawn, and the cursor advanced, only while the cursor sits above 70. -/
def guardedLines (x size step : ℚ) : List Str → ℚ → List PdfOp × ℚ
  | [], y => ([], y)
  | l :: rest, y =>
    if y > 70 then
      let r := guardedLines x size step rest (y - step)
      (PdfOp.text l x y size false :: r.1, r.2)
    else guardedLines x size step rest y

/-- The Key Highlights loop (`src/server/routes.ts` lines 394-407): each
bullet wrapped independently, drawn indented, 5 points between bullets. -/
def drawHighlights (maxW : ℚ) : List Str → ℚ → List PdfOp × ℚ
  | [], y => ([], y)
  | h :: rest, y =>
    let ls := (wrapText h maxW 10).map sanitizeText
    let r1 := textLinesAt 60 10 14 ls y
    let r2 := drawHighlights maxW rest (r1.2 - 5)
    (r1.1 ++ r2.1, r2.2)

/-- The dynamic page-1 title string. -/
def titleText (p : Proposal) (proj : Projections) : Str :=
  s2c "Turning R" ++ toLocale p.investmentAmount ++ s2c " into R" ++ toLocale proj.targetValue ++
    s2c " (" ++ numToStr p.targetReturn ++ s2c "% Growth) in " ++ numToStr p.timeHorizon ++
    s2c " Years"

/-- The templated executive summary paragraph. -/
def execSummaryText (p : Proposal) (proj : Projections) : Str :=
  s2c "This proposal outlines a strategic private equity (PE) investment strategy designed to grow an initial capital of R" ++
    toLocale p.investmentAmount ++ s2c " by " ++ numToStr p.targetReturn ++ s2c "% (R" ++
    toLocale proj.targetValue ++ s2c " total) over a " ++ numToStr p.timeHorizon ++
    s2c "-year horizon. By leveraging high-growth private equity opportunities in carefully selected industries, we aim to maximize returns while mitigating risks through diversification and expert fund management."

/-- The four Key Highlights bullets (`src/server/routes.ts` lines
387-392); `ann` is the float `annualizedReturn` computed with `Math.pow`,
carried as an extra input. -/
def highlightStrings (p : Proposal) (proj : Projections) (ann : ℚ) : List Str :=
  [s2c "• Target Return: " ++ numToStr p.targetReturn ++ s2c "% growth (R" ++
     toLocale proj.totalProfit ++ s2c " profit) in " ++ numToStr p.timeHorizon ++
     s2c " years (~" ++ toFixed 1 (ann * 100) ++ s2c "% annualised return).",
   s2c "• Investment Strategy: Focus on growth equity in high-potential sectors.",
   s2c "• Risk Management: Portfolio diversification, and active management.",
   s2c "• Exit Strategy: Share buybacks, IPOs, or secondary buyouts after " ++
     numToStr p.timeHorizon ++ s2c " years."]

def marketText : Str :=
  s2c "Private equity has historically outperformed public markets, delivering 12-25%+ annual returns in emerging markets like South Africa and BRICS. Key sectors with strong growth potential include:"

def sectorsList : List Str :=
  [s2c "Technology & FinTech (Digital payments, SaaS, AI Related business)",
   s2c "Consumer Goods & Retail (E-commerce, premium brands, Rewards, Lifestyle products)",
   s2c "Healthcare & Biotechnology (Telemedicine, generics manufacturing)"]

def renewableText : Str := s2c "Renewable Energy (Solar, battery storage)"

def investText : Str :=
  s2c "By investing in early stage but undervalued businesses with strong cash flow, IP and scalability, we position the portfolio for accelerated growth."

/-- Content page 1 (`src/server/routes.ts` lines 226-473). -/
def page1Ops (p : Proposal) (proj : Projections) (ann : ℚ) : List PdfOp :=
  let ra := textLinesAt 40 10 15 (splitCh '\n' p.clientAddress) 695
  let yA := ra.2 - 50
  let rs := textLinesAt 40 10 14
    ((wrapText (execSummaryText p proj) (contentWidth - 40) 10).map sanitizeText) (yA - 80)
  let yS := rs.2 - 15
  let rh := drawHighlights (contentWidth - 60) (highlightStrings p proj ann) (yS - 20)
  let yH := rh.2 - 25
  let rm := textLinesAt 40 10 14 (wrapText marketText (contentWidth - 40) 10) (yH - 20)
  let rsec := textLinesAt 40 10 14 sectorsList (rm.2 - 8)
  let ySec := rsec.2 - 10
  let ri := textLinesAt 40 10 14 (wrapText investText (contentWidth - 40) 10) (ySec - 18)
  addFooterOps ++
  [PdfOp.text (titleText p proj) 40 780 14 true,
   PdfOp.text (s2c "Prepared for: " ++ p.clientName) 40 755 11 true,
   PdfOp.text (s2c "Date: " ++ p.proposalDate) 40 735 11 true,
   PdfOp.text (s2c "Address:") 40 710 11 true] ++
  ra.1 ++
  [PdfOp.text (s2c "Dear " ++ p.clientName) 40 yA 16 true,
   PdfOp.text (s2c "We thank you for your interest in our Private Equity Proposal") 40 (yA - 30) 10 false,
   PdfOp.text (s2c "1. Executive Summary") 40 (yA - 60) 11 true] ++
  rs.1 ++
  [PdfOp.text (s2c "Key Highlights:") 40 yS 12 true] ++
  rh.1 ++
  [PdfOp.text (s2c "2. Investment Opportunity & Market Outlook") 40 yH 12 true] ++
  rm.1 ++ rsec.1 ++
  [PdfOp.text renewableText 40 ySec 10 false] ++
  ri.1

/-- The rows of the investment-structure table
(`src/server/routes.ts` lines 492-500). -/
def structureRows (p : Proposal) (proj : Projections) (ann : ℚ) : List (Str × Str) :=
  [(s2c "Component", s2c "Details"),
   (s2c "Investment Amount", s2c "R" ++ toLocale p.investmentAmount ++ s2c ",00"),
   (s2c "Target Return", s2c "R" ++ toLocale proj.targetValue ++ s2c ",00 (" ++
      numToStr p.targetReturn ++ s2c "% growth)"),
   (s2c "Time Horizon", numToStr p.timeHorizon ++ s2c " years"),
   (s2c "Annualised Return", s2c "~" ++ toFixed 0 (ann * 100) ++ s2c "%"),
   (s2c "Investment Vehicle", s2c "Private Equity / Direct Investment"),
   (s2c "Key Sectors", s2c "FinTech, Lifestyle, Online Education")]

/-- Per-row drawing of the investment-structure table
(`src/server/routes.ts` lines 527-557): a horizontal divider after every
row but the last (hard-coded from x 56), then the two cell texts. -/
def structRowOps (startY : ℚ) (total : Nat) : Nat → List (Str × Str) → List PdfOp
  | _, [] => []
  | i, row :: rest =>
    let currentY := startY - (i : ℚ) * 18 - 12
    (if i < total - 1 then
       [PdfOp.line 56 (startY - ((i : ℚ) + 1) * 18) (56 + 120 + 300) (startY - ((i : ℚ) + 1) * 18)]
     else []) ++
    [PdfOp.text row.1 61 currentY 9 (i == 0),
     PdfOp.text row.2 (61 + 120) currentY 9 (i == 0)] ++
    structRowOps startY total (i + 1) rest

/-- The investment-structure table (`src/server/routes.ts` lines 502-557):
border rectangle at the left margin 40, single column divider at
56 + col1Width, row height 18, column widths 120 and 300. -/
def structureTableOps (startY : ℚ) (rows : List (Str × Str)) : List PdfOp :=
  PdfOp.rect 40 (startY - 18 * (rows.length : ℚ)) (120 + 300) (18 * (rows.length : ℚ)) ::
  PdfOp.line (56 + 120) startY (56 + 120) (startY - 18 * (rows.length : ℚ)) ::
  structRowOps startY rows.length 0 rows

/-- Column widths of the cash-flow table (`src/server/routes.ts` line 611). -/
def cashColWidths : List ℚ := [40, 75, 75, 75, 60, 95]

/-- Cumulative column positions starting from a given x. -/
def colPositionsAux : List ℚ → ℚ → List ℚ
  | [], _ => []
  | w :: rest, x => x :: colPositionsAux rest (x + w)

/-- `colPositions` of the cash-flow table: cumulative offsets from the
hard-coded x 56 (`src/server/routes.ts` lines 612-615). -/
def cashColPositions : List ℚ := colPositionsAux cashColWidths 56

/-- Total width of the cash-flow table (`colWidths.reduce`). -/
def cashTableWidth : ℚ := cashColWidths.sum

/-- The cell texts of one row at the column positions, with 3 points padding. -/
def cellOps (y : ℚ) (bold : Bool) : List Str → List ℚ → List PdfOp
  | c :: cs, px :: ps => PdfOp.text c (px + 3) y 8 bold :: cellOps y bold cs ps
  | _, _ => []

/-- Per-row drawing of the cash-flow table (`src/server/routes.ts` lines
641-665): divider after every row but the last (from x 56), then cells. -/
def cashRowOps (tableTop : ℚ) (total : Nat) : Nat → List (List Str) → List PdfOp
  | _, [] => []
  | i, row :: rest =>
    let currentY := tableTop - (i : ℚ) * 18 - 12
    (if i < total - 1 then
       [PdfOp.line 56 (tableTop - ((i : ℚ) + 1) * 18) (56 + cashTableWidth)
          (tableTop - ((i : ℚ) + 1) * 18)]
     else []) ++
    cellOps currentY (i == 0) row cashColPositions ++
    cashRowOps tableTop total (i + 1) rest

/-- The cash-flow table (`src/server/routes.ts` lines 610-665): border
rectangle at the left margin 40, vertical dividers at `colPositions[1..]`,
row height 18. -/
def cashFlowTableOps (tableTop : ℚ) (rows : List (List Str)) : List PdfOp :=
  PdfOp.rect 40 (tableTop - 18 * (rows.length : ℚ)) cashTableWidth (18 * (rows.length : ℚ)) ::
  ((cashColPositions.drop 1).map fun px =>
      PdfOp.line px tableTop px (tableTop - 18 * (rows.length : ℚ))) ++
  cashRowOps tableTop rows.length 0 rows

/-- The rows of the cash-flow table (`src/server/routes.ts` lines 602-608). -/
def cashFlowRows (p : Proposal) (proj : Projections) : List (List Str) :=
  [[s2c "Year", s2c "Shares Issued", s2c "Div Allocation", s2c "Div Return", s2c "Growth (%)",
    s2c "Investment Value"],
   [s2c "Year 0", s2c "-", s2c "-", s2c "-", s2c "-",
    s2c "R" ++ toLocale p.investmentAmount ++ s2c ",00"],
   [s2c "Year 1", toLocale (proj.sharesIssued.floor : ℚ), toFixed 3 p.year1Dividend,
    s2c "R" ++ toLocale proj.year1Return ++ s2c ",00", toFixed 2 proj.year1Growth ++ s2c "%",
    s2c "R" ++ toLocale proj.year1Value ++ s2c ",00"],
   [s2c "Year 2", toLocale (proj.sharesIssued.floor : ℚ), toFixed 3 p.year2Dividend,
    s2c "R" ++ toLocale proj.year2Return ++ s2c ",00", toFixed 2 proj.year2Growth ++ s2c "%",
    s2c "R" ++ toLocale proj.year2Value ++ s2c ",00"],
   [s2c "Year 3", toLocale (proj.sharesIssued.floor : ℚ), toFixed 3 p.year3Dividend,
    s2c "R" ++ toLocale proj.year3Return ++ s2c ",00", toFixed 2 proj.year3Growth ++ s2c "%",
    s2c "R" ++ toLocale proj.year3Value ++ s2c ",00"]]

def peReasons : List Str :=
  [s2c "• Higher Returns: PE typically outperforms stocks & bonds.",
   s2c "• Active Value Creation: Hands-on management improves business performance.",
   s2c "• Lower Volatility: Unlike public markets, PE is less exposed to short-term fluctuations."]

def notesList : List Str :=
  [s2c "• Note: While returns are based on historical PE performance; actual results may vary.",
   s2c "• Fund Value is non liquid",
   s2c "• The investment is locked into the period with no access to investment"]

/-- Content page 2 (`src/server/routes.ts` lines 475-685); all cursor
positions on this page are fixed constants. -/
def page2Ops (p : Proposal) (proj : Projections) (ann : ℚ) : List PdfOp :=
  addFooterOps ++
  [PdfOp.text (s2c "3. Proposed Investment Structure") 40 780 12 true] ++
  structureTableOps 755 (structureRows p proj ann) ++
  [PdfOp.text (s2c "Why Private Equity?") 40 599 10 true] ++
  (textLinesAt 66 9 15 peReasons 584).1 ++
  [PdfOp.text (s2c "4. Projected Returns & Cash Flow") 40 519 11 true] ++
  cashFlowTableOps 494 (cashFlowRows p proj) ++
  (textLinesAt 66 9 12 notesList 384).1

def riskStrategies : List Str :=
  [s2c "• Diversification across 1-5 high-growth potential companies",
   s2c "• Due Diligence on management teams, financials, and market trends",
   s2c "• Structured Exit Plans (Share swops, IPO, recapitalization, buyouts)",
   s2c "• Co-Investment Model (Reduces exposure via partnerships)"]

def whyInvestItems : List Str :=
  [s2c "• Industry Expertise: Deep knowledge of South African & African markets",
   s2c "• Transparent Fees: Performance-based compensation (2% management fee + 20% carry)",
   s2c "• Aligned Interests: We invest alongside clients",
   s2c "• Ownership: We take a large ownership and management stake in companies we invest in"]

def nextStepsList : List Str :=
  [s2c "1. Decision Taking: Deciding on risk appetite & capital to be invested",
   s2c "2. Risk Process: Making investment and completing documentation",
   s2c "3. Capital Deployment: We begin investment within 2-6 weeks post due diligence.",
   s2c "4. Quarterly Reporting: Transparent updates on performance."]

/-- The templated conclusion paragraph on page 3. -/
def conclusionText (p : Proposal) (proj : Projections) : Str :=
  s2c "This private equity strategy offers a compelling opportunity to grow R" ++
    toLocale p.investmentAmount ++ s2c " into R" ++ toLocale proj.targetValue ++ s2c " in " ++
    numToStr p.timeHorizon ++ s2c " years (" ++ numToStr p.targetReturn ++
    s2c "% return) by leveraging high-growth, private-held businesses. With disciplined risk management and sector expertise, we are confident in delivering superior returns."

def thankYouText : Str :=
  s2c "Thank you for your consideration. Please reach out to me if there are further concerns or let\x27s discuss how we can tailor this strategy to your goals."

def disclaimerText : Str :=
  s2c "*Disclaimer: This proposal is for illustrative purposes only. Past performance is not indicative of future results. Private equity involves risk, including potential loss of capital. Investors should conduct independent due diligence before making investment decisions.*"

/-- A page-3 step of the form "draw the line only if the cursor is above
70, then move the cursor down unconditionally" (`src/server/routes.ts`
lines 838-849, 868-891). -/
def textThenDrop (s : Str) (size : ℚ) (bold : Bool) (drop y : ℚ) : List PdfOp × ℚ :=
  ((if y > 70 then [PdfOp.text s 40 y size bold] else []), y - drop)

/-- A page-3 step of the form "if the cursor is above 70, draw the line
and move the cursor down; otherwise leave it as is"
(`src/server/routes.ts` lines 893-914). -/
def textDropIfRoom (s : Str) (size drop y : ℚ) : List PdfOp × ℚ :=
  if y > 70 then ([PdfOp.text s 40 y size false], y - drop) else ([], y)

/-- The signature-image step (`src/server/routes.ts` lines 851-866): the
image is drawn only when it loaded and the cursor is above 130; with no
image (or no room) only spacing is consumed. -/
def sigImageStep (sig : Option Unit) (y : ℚ) : List PdfOp × ℚ :=
  if sig.isSome ∧ y > 130 then ([PdfOp.image 40 (y - 60) 120 60], y - 70)
  else if y > 90 then ([], y - 40)
  else ([], y)

/-- The guarded signature / contact block of page 3
(`src/server/routes.ts` lines 836-924): every draw is gated on the cursor
sitting above 70 (130 for the signature image); nothing is drawn once the
cursor has fallen to 70 or below. -/
def signatureTailOps (sig : Option Unit) (y0 : ℚ) : List PdfOp × ℚ :=
  let r1 := textThenDrop (s2c "Kind Regards") 10 false 20 y0
  let r2 := sigImageStep sig r1.2
  let r3 := textThenDrop (s2c "Lance E Heynes") 10 true 15 r2.2
  let r4 := textThenDrop (s2c "CEO") 10 false 30 r3.2
  let r5 := textDropIfRoom (s2c "Tel: 081 323 4297") 9 15 r4.2
  let r6 := textDropIfRoom (s2c "Email: lance@opianfsgroup.com") 9 15 r5.2
  let wOps : List PdfOp :=
    if r6.2 > 70 then [PdfOp.text (s2c "Website: www.opiancapital.com") 40 r6.2 9 false] else []
  (r1.1 ++ r2.1 ++ r3.1 ++ r4.1 ++ r5.1 ++ r6.1 ++ wOps, r6.2)

/-- The dynamic tail of page 3 (`src/server/routes.ts` lines 800-940):
conclusion and thank-you paragraphs with the above-70 guard and the
clamp-to-80 adjustments, signature block, then the unguarded disclaimer. -/
def page3Tail (p : Proposal) (proj : Projections) (sig : Option Unit) : List PdfOp :=
  let y0 : ℚ := 405
  let y1 := if y0 < 80 then 80 else y0
  let rc := guardedLines 40 9 12 (wrapText (conclusionText p proj) 480 10) y1
  let y2 := rc.2 - 15
  let y3 := if y2 < 80 then 80 else y2
  let rt := guardedLines 40 9 12 (wrapText thankYouText 480 10) y3
  let rs := signatureTailOps sig (rt.2 - 20)
  let rd := textLinesAt 40 8 10 (wrapText disclaimerText 480 10) (rs.2 - 30)
  rc.1 ++ rt.1 ++ rs.1 ++ rd.1

/-- Content page 3 (`src/server/routes.ts` lines 687-940); the cursor at
the Conclusion heading is the fixed constant 420. -/
def page3Ops (p : Proposal) (proj : Projections) (sig : Option Unit) : List PdfOp :=
  addFooterOps ++
  [PdfOp.text (s2c "5. Risk Mitigation Strategy") 40 720 12 true,
   PdfOp.text (s2c "To safeguard capital while pursuing high returns, we implement:") 40 705 9 false] ++
  (textLinesAt 66 9 15 riskStrategies 685).1 ++
  [PdfOp.text (s2c "6. Why Invest With Us?") 40 610 11 true] ++
  (textLinesAt 66 9 15 whyInvestItems 595).1 ++
  [PdfOp.text (s2c "7. Next Steps") 40 515 11 true] ++
  (textLinesAt 66 9 15 nextStepsList 500).1 ++
  [PdfOp.text (s2c "8. Conclusion") 40 420 11 true] ++
  page3Tail p proj sig

/-- The whole PDF route body (`src/server/routes.ts` lines 46-980): one
cover page and three content pages are added unconditionally — the route
contains no other `addPage` call and no overflow check. `cover` is the
natural size of the cover image if it loaded, `logo` is loaded but never drawn
by this route, `sig` gates the signature image, and `ann` is the
`Math.pow` float `annualizedReturn` carried as an extra input. -/
def generatePdf (p : Proposal) (cover : Option (ℚ × ℚ)) (logo sig : Option Unit) (ann : ℚ) :
    List Page :=
  let proj := computeProjections p
  [⟨coverPageOps cover⟩,
   ⟨page1Ops p proj ann ++ endFooterOps⟩,
   ⟨page2Ops p proj ann ++ endFooterOps⟩,
   ⟨page3Ops p proj sig ++ endFooterOps⟩]

end Routes

/-- Sample proposal record: the end-to-end scenario of the specification
(investmentAmount 150000, targetReturn 72%, horizon 3 years, dividends
1.440 / 1.888 / 2.378). -/
def p0 : Proposal :=
  { clientName := s2c "Test Client"
    clientAddress := s2c "1 Main Road\nBellville"
    proposalDate := s2c "2025-01-01"
    investmentAmount := 150000
    targetReturn := 72
    timeHorizon := 3
    year1Dividend := 1.44
    year2Dividend := 1.888
    year3Dividend := 2.378 }

/-! ## General lemmas about the layout primitives -/

/-- `splitChAux` always returns at least one piece. -/
theorem splitChAux_ne_nil (sep : Char) : ∀ (l acc : List Char), splitChAux sep l acc ≠ [] := by
  intro l
  induction l with
  | nil => intro acc; simp [splitChAux]
  | cons c rest ih =>
    intro acc
    rw [splitChAux]
    by_cases hc : c = sep
    · rw [if_pos hc]; simp
    · rw [if_neg hc]; exact ih (c :: acc)

/-- `joinSpace` on a list with at least two elements. -/
theorem joinSpace_cons (a : Str) (l : List Str) (h : l ≠ []) :
    joinSpace (a :: l) = a ++ ' ' :: joinSpace l := by
  cases l with
  | nil => exact absurd rfl h
  | cons b t => rfl

/-- Splitting on spaces and re-joining with single spaces is the identity,
for JS `split` semantics. -/
theorem joinSpace_splitChAux : ∀ (l acc : List Char),
    joinSpace (splitChAux ' ' l acc) = acc.reverse ++ l := by
  intro l
  induction l with
  | nil => intro acc; simp [splitChAux, joinSpace]
  | cons c rest ih =>
    intro acc
    rw [splitChAux]
    by_cases hc : c = ' '
    · rw [if_pos hc,
        joinSpace_cons acc.reverse (splitChAux ' ' rest []) (splitChAux_ne_nil ' ' rest []),
        ih []]
      simp [hc]
    · rw [if_neg hc, ih (c :: acc)]
      simp

/-- `join(split(l, " "), " ") = l`. -/
theorem joinSpace_splitSp (l : Str) : joinSpace (splitSp l) = l := by
  simpa using joinSpace_splitChAux l []

/-- Joining non-empty groups of words equals joining the flattened words. -/
theorem joinSpace_append (a b : List Str) (ha : a ≠ []) (hb : b ≠ []) :
    joinSpace (a ++ b) = joinSpace a ++ ' ' :: joinSpace b := by
  induction a with
  | nil => exact absurd rfl ha
  | cons x xs ih =>
    cases xs with
    | nil =>
      cases b with
      | nil => exact absurd rfl hb
      | cons y ys => simp [joinSpace]
    | cons x2 xs2 =>
      have h1 : joinSpace ((x2 :: xs2) ++ b) = joinSpace (x2 :: xs2) ++ ' ' :: joinSpace b :=
        ih (by simp)
      have h2 : (x :: x2 :: xs2) ++ b = x :: x2 :: (xs2 ++ b) := by simp
      rw [h2, joinSpace_cons x (x2 :: (xs2 ++ b)) (by simp),
          joinSpace_cons x (x2 :: xs2) (by simp)]
      have h3 : (x2 :: (xs2 ++ b)) = (x2 :: xs2) ++ b := by simp
      rw [h3, h1]
      simp

/-- Joining the per-group joins equals joining the flattened word list,
provided every group is non-empty. -/
theorem joinSpace_map_join : ∀ (gs : List (List Str)), (∀ g ∈ gs, g ≠ []) →
    joinSpace (gs.map joinSpace) = joinSpace gs.flatten := by
  intro gs
  induction gs with
  | nil => intro _; rfl
  | cons g rest ih =>
    intro h
    cases rest with
    | nil => simp [joinSpace]
    | cons r rs =>
      have hg : g ≠ [] := h g (by simp)
      have hr : r ≠ [] := h r (by simp)
      have hjoin : (r :: rs).flatten ≠ [] := by
        simp only [List.flatten_cons]
        intro hcontra
        exact hr (List.append_eq_nil.mp hcontra).1
      have hrest : joinSpace ((r :: rs).map joinSpace) = joinSpace (r :: rs).flatten :=
        ih (fun g2 hg2 => h g2 (by simp [hg2]))
      rw [List.map_cons, joinSpace_cons (joinSpace g) ((r :: rs).map joinSpace) (by simp), hrest,
          show (g :: r :: rs).flatten = g ++ (r :: rs).flatten from rfl,
          joinSpace_append g ((r :: rs).flatten) hg hjoin]

/-- The part_000 wrap loop neither drops, duplicates, nor alters words:
the wrapped lines flatten back to the pending words, prefixed by the
current line. -/
theorem wrapWordsAux_flatten (fw : Str → ℚ) (mw : ℚ) :
    ∀ (ws : List Str) (cur : List Str),
      (Part000.wrapWordsAux fw mw ws cur).flatten = cur ++ ws := by
  intro ws
  induction ws with
  | nil =>
    intro cur
    rw [Part000.wrapWordsAux]
    by_cases hc : cur = []
    · simp [hc]
    · simp [hc]
  | cons word rest ih =>
    intro cur
    rw [Part000.wrapWordsAux]
    by_cases hbr : Part000.lineWidth fw (cur ++ [word]) > mw ∧ cur ≠ []
    · rw [if_pos hbr]
      simp [ih [word]]
    · rw [if_neg hbr]
      simp [ih (cur ++ [word])]

/-- The part_000 wrap loop never emits an empty line. -/
theorem wrapWordsAux_ne_nil (fw : Str → ℚ) (mw : ℚ) :
    ∀ (ws : List Str) (cur : List Str), [] ∉ Part000.wrapWordsAux fw mw ws cur := by
  intro ws
  induction ws with
  | nil =>
    intro cur
    rw [Part000.wrapWordsAux]
    by_cases hc : cur = []
    · simp [hc]
    · simp [hc]
  | cons word rest ih =>
    intro cur
    rw [Part000.wrapWordsAux]
    by_cases hbr : Part000.lineWidth fw (cur ++ [word]) > mw ∧ cur ≠ []
    · rw [if_pos hbr]
      intro hmem
      rcases List.mem_cons.mp hmem with heq | hmem2
      · exact hbr.2 heq.symm
      · exact ih [word] hmem2
    · rw [if_neg hbr]
      exact ih (cur ++ [word])

/-- Every line emitted by the part_000 wrap loop either fits within
`maxWidth` under the measure of the loop itself, or is a single word, or is the
line that was already open when the loop started. -/
theorem wrapWordsAux_width (fw : Str → ℚ) (mw : ℚ) :
    ∀ (ws : List Str) (cur : List Str), ∀ line ∈ Part000.wrapWordsAux fw mw ws cur,
      Part000.lineWidth fw line ≤ mw ∨ line.length = 1 ∨ line = cur := by
  intro ws
  induction ws with
  | nil =>
    intro cur line hline
    rw [Part000.wrapWordsAux] at hline
    by_cases hc : cur = []
    · simp [hc] at hline
    · simp [hc] at hline
      right; right; exact hline
  | cons word rest ih =>
    intro cur line hline
    rw [Part000.wrapWordsAux] at hline
    by_cases hbr : Part000.lineWidth fw (cur ++ [word]) > mw ∧ cur ≠ []
    · rw [if_pos hbr] at hline
      rcases List.mem_cons.mp hline with heq | hmem2
      · right; right; exact heq
      · rcases ih [word] line hmem2 with h | h | h
        · left; exact h
        · right; left; exact h
        · right; left; rw [h]; rfl
    · rw [if_neg hbr] at hline
      rcases ih (cur ++ [word]) line hline with h | h | h
      · left; exact h
      · right; left; exact h
      · rcases Decidable.not_and_iff_or_not.mp hbr with hw | hc
        · left; rw [h]; exact le_of_not_lt hw
        · right; left
          rw [h, Decidable.not_not.mp hc]
          rfl

/-- Every line emitted by the `wrapText` loop of the route either fits
within `maxWidth` under its character-count measure, or is one of the
pending input words (an overwide word pushed alone, unmodified), or is
the line that was already open. -/
theorem wrapTextAux_width (fontSize mw : ℚ) (hmw : 0 ≤ mw) :
    ∀ (ws : List Str) (cur : Str), ∀ line ∈ Routes.wrapTextAux fontSize mw ws cur,
      Routes.strWidth fontSize line ≤ mw ∨ line ∈ ws ∨ line = cur := by
  intro ws
  induction ws with
  | nil =>
    intro cur line hline
    rw [Routes.wrapTextAux] at hline
    by_cases hc : cur = []
    · simp [hc] at hline
    · simp [hc] at hline
      right; right; exact hline
  | cons word rest ih =>
    intro cur line hline
    rw [Routes.wrapTextAux] at hline
    by_cases hc : cur = []
    · subst hc
      simp only [if_pos rfl, reduceIte] at hline
      by_cases hw : Routes.strWidth fontSize word > mw
      · rw [if_pos hw] at hline
        rcases List.mem_cons.mp hline with heq | hmem2
        · right; left; rw [heq]; exact List.mem_cons_self word rest
        · rcases ih [] line hmem2 with h | h | h
          · left; exact h
          · right; left; exact List.mem_cons_of_mem word h
          · left
            rw [h]
            simpa [Routes.strWidth] using hmw
      · rw [if_neg hw] at hline
        rcases ih word line hline with h | h | h
        · left; exact h
        · right; left; exact List.mem_cons_of_mem word h
        · left; rw [h]; exact le_of_not_lt hw
    · rw [if_neg hc] at hline
      by_cases hw : Routes.strWidth fontSize (cur ++ ' ' :: word) > mw
      · rw [if_pos hw, if_neg hc] at hline
        rcases List.mem_cons.mp hline with heq | hmem2
        · right; right; exact heq
        · rcases ih word line hmem2 with h | h | h
          · left; exact h
          · right; left; exact List.mem_cons_of_mem word h
          · right; left; rw [h]; exact List.mem_cons_self word rest
      · rw [if_neg hw] at hline
        rcases ih (cur ++ ' ' :: word) line hline with h | h | h
        · left; exact h
        · right; left; exact List.mem_cons_of_mem word h
        · left; rw [h]; exact le_of_not_lt hw

/-- `placeWords` is non-empty on non-empty input. -/
theorem placeWords_ne_nil (fw : Str → ℚ) (g : ℚ) (w : Str) (rest : List Str) (cx : ℚ) :
    Part000.placeWords fw g (w :: rest) cx ≠ [] := by
  rw [Part000.placeWords]
  simp

/-- The right edge of a uniformly-gapped placement: start plus the word
widths plus one gap per inter-word boundary. -/
theorem rightEdge_placeWords (fw : Str → ℚ) (g : ℚ) :
    ∀ (ws : List Str) (cx : ℚ), ws ≠ [] →
      Part000.rightEdge fw (Part000.placeWords fw g ws cx) =
        cx + (ws.map fw).sum + ((ws.length : ℚ) - 1) * g := by
  intro ws
  induction ws with
  | nil => intro cx h; exact absurd rfl h
  | cons w rest ih =>
    intro cx _
    cases rest with
    | nil =>
      rw [Part000.placeWords, Part000.placeWords, Part000.rightEdge]
      simp
    | cons w2 rest2 =>
      rw [Part000.placeWords, Part000.placeWords, Part000.rightEdge,
          show Part000.placeWords fw g rest2 (cx + fw w + g + fw w2 + g) =
            Part000.placeWords fw g rest2 ((cx + fw w + g) + fw w2 + g) from rfl,
          show ((w2, cx + fw w + g) :: Part000.placeWords fw g rest2 (cx + fw w + g + fw w2 + g)) =
            Part000.placeWords fw g (w2 :: rest2) (cx + fw w + g) from rfl,
          ih (cx + fw w + g) (by simp)]
      simp only [List.map_cons, List.sum_cons, List.length_cons]
      push_cast
      ring

/-- With an additive font metric, the width of a joined line is the sum of
the word widths plus one space width per gap. -/
theorem lineWidth_additive (fw : Str → ℚ) (hadd : ∀ a b : Str, fw (a ++ b) = fw a + fw b) :
    ∀ (ws : List Str), ws ≠ [] →
      Part000.lineWidth fw ws = (ws.map fw).sum + ((ws.length : ℚ) - 1) * fw [' '] := by
  intro ws
  induction ws with
  | nil => intro h; exact absurd rfl h
  | cons w rest ih =>
    intro _
    cases rest with
    | nil => simp [Part000.lineWidth, joinSpace]
    | cons w2 rest2 =>
      have h1 : joinSpace (w :: w2 :: rest2) = w ++ ' ' :: joinSpace (w2 :: rest2) := rfl
      have h2 : (' ' :: joinSpace (w2 :: rest2) : Str) = [' '] ++ joinSpace (w2 :: rest2) := rfl
      unfold Part000.lineWidth
      rw [h1, hadd, h2, hadd]
      have h3 := ih (by simp)
      unfold Part000.lineWidth at h3
      rw [h3]
      simp only [List.map_cons, List.sum_cons, List.length_cons]
      push_cast
      ring

/-- Splitting an all-space string on spaces yields only empty pieces. -/
theorem splitChAux_all_spaces :
    ∀ (t : Str), (∀ c ∈ t, c = ' ') →
      splitChAux ' ' t [] = List.replicate (t.length + 1) [] := by
  intro t
  induction t with
  | nil => intro _; rfl
  | cons c rest ih =>
    intro h
    rw [splitChAux, if_pos (h c (List.mem_cons_self c rest)),
        ih (fun c2 hc2 => h c2 (List.mem_cons_of_mem c hc2))]
    rfl

/-- The wrap loop of the route consumes a list of empty words without emitting
any line (each empty test line trivially fits). -/
theorem wrapTextAux_replicate_nil (fontSize mw : ℚ) (h : 0 < mw) :
    ∀ n : Nat, Routes.wrapTextAux fontSize mw (List.replicate n []) [] = [] := by
  intro n
  induction n with
  | zero => rfl
  | succ k ih =>
    rw [List.replicate_succ, Routes.wrapTextAux]
    have hfit : ¬ (Routes.strWidth fontSize (if ([] : Str) = [] then [] else [] ++ ' ' :: []) > mw) := by
      simp [Routes.strWidth]
      linarith
    simp only [reduceIte]
    rw [if_neg (by simpa [Routes.strWidth] using hfit)]
    exact ih

/-! ## Claim theorems -/

/-- **C1.** For every proposal record with `investmentAmount > 0` and
`timeHorizon > 0`, the projection calculation of the route satisfies
`sharesIssued = investmentAmount / 8`; for each N in {1,2,3},
`yearNReturn = sharesIssued * yearNDividend`,
`yearNValue = year(N-1)Value + yearNReturn` with
`year0Value = investmentAmount`, and
`yearNGrowth = (yearNReturn / year(N-1)Value) * 100`, the year-1
denominator being the principal itself. -/
theorem c1_projection_formulas (p : Proposal)
    (hA : 0 < p.investmentAmount) (hT : 0 < p.timeHorizon) :
    (Routes.computeProjections p).sharesIssued = p.investmentAmount / 8 ∧
    (Routes.computeProjections p).year1Return =
      (Routes.computeProjections p).sharesIssued * p.year1Dividend ∧
    (Routes.computeProjections p).year2Return =
      (Routes.computeProjections p).sharesIssued * p.year2Dividend ∧
    (Routes.computeProjections p).year3Return =
      (Routes.computeProjections p).sharesIssued * p.year3Dividend ∧
    (Routes.computeProjections p).year1Value =
      p.investmentAmount + (Routes.computeProjections p).year1Return ∧
    (Routes.computeProjections p).year2Value =
      (Routes.computeProjections p).year1Value + (Routes.computeProjections p).year2Return ∧
    (Routes.computeProjections p).year3Value =
      (Routes.computeProjections p).year2Value + (Routes.computeProjections p).year3Return ∧
    (Routes.computeProjections p).year1Growth =
      ((Routes.computeProjections p).year1Return / p.investmentAmount) * 100 ∧
    (Routes.computeProjections p).year2Growth =
      ((Routes.computeProjections p).year2Return / (Routes.computeProjections p).year1Value) * 100 ∧
    (Routes.computeProjections p).year3Growth =
      ((Routes.computeProjections p).year3Return / (Routes.computeProjections p).year2Value) * 100 :=
  ⟨rfl, rfl, rfl, rfl, rfl, rfl, rfl, rfl, rfl, rfl⟩

/-- Witness for C1 at the end-to-end scenario record of the specification. -/
theorem c1_projection_formulas_witness :
    (Routes.computeProjections p0).sharesIssued = p0.investmentAmount / 8 ∧
    (Routes.computeProjections p0).year1Return =
      (Routes.computeProjections p0).sharesIssued * p0.year1Dividend ∧
    (Routes.computeProjections p0).year2Return =
      (Routes.computeProjections p0).sharesIssued * p0.year2Dividend ∧
    (Routes.computeProjections p0).year3Return =
      (Routes.computeProjections p0).sharesIssued * p0.year3Dividend ∧
    (Routes.computeProjections p0).year1Value =
      p0.investmentAmount + (Routes.computeProjections p0).year1Return ∧
    (Routes.computeProjections p0).year2Value =
      (Routes.computeProjections p0).year1Value + (Routes.computeProjections p0).year2Return ∧
    (Routes.computeProjections p0).year3Value =
      (Routes.computeProjections p0).year2Value + (Routes.computeProjections p0).year3Return ∧
    (Routes.computeProjections p0).year1Growth =
      ((Routes.computeProjections p0).year1Return / p0.investmentAmount) * 100 ∧
    (Routes.computeProjections p0).year2Growth =
      ((Routes.computeProjections p0).year2Return / (Routes.computeProjections p0).year1Value) * 100 ∧
    (Routes.computeProjections p0).year3Growth =
      ((Routes.computeProjections p0).year3Return / (Routes.computeProjections p0).year2Value) * 100 :=
  c1_projection_formulas p0 (by decide) (by decide)

/-- **C4.** `checkPageOverflow` returns page and cursor unchanged when the
cursor sits at or above the threshold; below the threshold it allocates
one fresh page carrying the footer and logo decorations and returns the
top-of-content cursor constant 750. -/
theorem c4_ensure_space (doc : List Page) (cur : Nat) (y minNeeded : ℚ) (logo : Option Unit) :
    (minNeeded ≤ y → Part000.checkPageOverflow doc cur y minNeeded logo = (doc, cur, y)) ∧
    (y < minNeeded →
      Part000.checkPageOverflow doc cur y minNeeded logo =
        (doc ++ [⟨Part000.footerOps ++ Part000.logoOps logo⟩], doc.length, 750)) := by
  constructor
  · intro h
    rw [Part000.checkPageOverflow, if_neg (not_lt.mpr h)]
  · intro h
    rw [Part000.checkPageOverflow, if_pos h]

/-- Witness for C4: both branches at concrete inputs. -/
theorem c4_ensure_space_witness :
    Part000.checkPageOverflow [] 0 200 150 none = ([], 0, 200) ∧
    Part000.checkPageOverflow [] 0 100 150 none =
      ([⟨Part000.footerOps ++ Part000.logoOps none⟩], 0, 750) :=
  ⟨(c4_ensure_space [] 0 200 150 none).1 (by norm_num),
   by
    have h := (c4_ensure_space [] 0 100 150 none).2 (by norm_num)
    simpa using h⟩

/-- **C6.** The target-driven `targetValue` of the server route
(`investmentAmount * (1 + targetReturn / 100)`) and the client
dividend-driven `targetValue` of the client calculator (`year3Value`) disagree on a
concrete proposal record (150000 at 72% with dividends 1.440/1.888/2.378:
258000 versus 256987.5), so the two variants are not equivalent as
functions of the proposal record. -/
theorem c6_target_value_variants :
    (Routes.computeProjections p0).targetValue ≠
      (Client.calculateInvestmentProjections p0).targetValue := by
  simp only [Routes.computeProjections, Client.calculateInvestmentProjections, p0]
  norm_num

/-- **C2.** For every input text and every `maxWidth > 0`, each line
returned by the wrap functions has width at most `maxWidth` under the
own width measure of the respective function, except that an overwide single
word occupies a line by itself, unmodified (it is one of the input words;
words are never split). Stated for `wrapText` of the route and for the
wrap phase of `drawJustifiedText` of part_000 (any width measure `fw`). -/
theorem c2_wrap_line_widths (text : Str) (maxWidth fontSize : ℚ) (fw : Str → ℚ)
    (h : 0 < maxWidth) :
    (∀ line ∈ Routes.wrapText text maxWidth fontSize,
        Routes.strWidth fontSize line ≤ maxWidth ∨ line ∈ splitSp text) ∧
    (∀ line ∈ Part000.wrapLines fw maxWidth text,
        Part000.lineWidth fw line ≤ maxWidth ∨
          ∃ w ∈ splitSp (normalizeWs text), line = [w]) := by
  constructor
  · intro line hline
    rcases wrapTextAux_width fontSize maxWidth (le_of_lt h) (splitSp text) [] line hline with
      hw | hm | he
    · exact Or.inl hw
    · exact Or.inr hm
    · left
      rw [he]
      simpa [Routes.strWidth] using le_of_lt h
  · intro line hline
    simp only [Part000.wrapLines] at hline
    rcases wrapWordsAux_width fw maxWidth (splitSp (normalizeWs text)) [] line hline with
      hw | h1 | he
    · exact Or.inl hw
    · right
      rcases List.length_eq_one.mp h1 with ⟨w, hw2⟩
      refine ⟨w, ?_, hw2⟩
      have hmem : w ∈ (Part000.wrapWordsAux fw maxWidth (splitSp (normalizeWs text)) []).flatten :=
        List.mem_flatten.mpr ⟨line, hline, by rw [hw2]; exact List.mem_singleton.mpr rfl⟩
      rw [wrapWordsAux_flatten] at hmem
      simpa using hmem
    · rw [he] at hline
      exact absurd hline (wrapWordsAux_ne_nil fw maxWidth _ [])

/-- Witness for C2: the single line produced for "aa bb" at width 40. -/
theorem c2_wrap_line_widths_witness :
    Routes.strWidth 10 ['a', 'a', ' ', 'b', 'b'] ≤ 40 ∨
      ['a', 'a', ' ', 'b', 'b'] ∈ splitSp ['a', 'a', ' ', 'b', 'b'] :=
  (c2_wrap_line_widths ['a', 'a', ' ', 'b', 'b'] 40 10 lenW (by norm_num)).1
    ['a', 'a', ' ', 'b', 'b']
    (by
      iterate 4
        try norm_num [Routes.wrapText, Routes.wrapTextAux, Routes.strWidth, Routes.charWidth,
          splitSp, splitCh, splitChAux]
        try simp [Routes.wrapTextAux])

/-- **C3 counterexample.** `wrapText` of the route performs no whitespace
normalization: on the input "a  b" (double space) with a wide limit it
returns the single line "a  b", whose single-space rejoin differs from
the whitespace-normalized input "a b". -/
theorem c3_counterexample :
    joinSpace (Routes.wrapText ['a', ' ', ' ', 'b'] 1000 10) ≠
      normalizeWs ['a', ' ', ' ', 'b'] := by
  have h1 : Routes.wrapText ['a', ' ', ' ', 'b'] 1000 10 = [['a', ' ', ' ', 'b']] := by
    iterate 4
      try norm_num [Routes.wrapText, Routes.wrapTextAux, Routes.strWidth, Routes.charWidth,
        splitSp, splitCh, splitChAux]
      try simp [Routes.wrapTextAux]
  rw [h1]
  simp [joinSpace, normalizeWs, trimWs, collapseWsAux, jsWhitespace]

/-- **C3 (amended).** For the part_000 `drawJustifiedText` — the wrap that
does normalize whitespace before wrapping — joining the wrapped lines
with single spaces reproduces the whitespace-normalized input exactly,
for every width measure and every maxWidth; `wrapText` of the route does
not normalize, and its rejoined output can retain interior whitespace
runs verbatim. -/
theorem c3_join_reproduces_normalized (fw : Str → ℚ) (maxWidth : ℚ) (text : Str) :
    joinSpace ((Part000.wrapLines fw maxWidth text).map joinSpace) = normalizeWs text := by
  have hne : ∀ g ∈ Part000.wrapLines fw maxWidth text, g ≠ [] := by
    intro g hg hcontra
    rw [hcontra] at hg
    simp only [Part000.wrapLines] at hg
    exact wrapWordsAux_ne_nil fw maxWidth _ [] hg
  rw [joinSpace_map_join _ hne]
  simp only [Part000.wrapLines]
  rw [wrapWordsAux_flatten]
  simpa using joinSpace_splitSp (normalizeWs text)

/-- **C9 counterexample.** On text that is empty after normalization, the
layout operation `drawJustifiedText` does advance the cursor: with the
empty input and lineSpacing 14 it draws one (empty) line and returns
y − 14, not y. -/
theorem c9_counterexample :
    (Part000.drawJustifiedText lenW [] 50 700 495 10 14).2 ≠ 700 := by
  have h : Part000.drawJustifiedText lenW [] 50 700 495 10 14 =
      ([PdfOp.text [] 50 700 10 false], 686) := by
    norm_num [Part000.drawJustifiedText, Part000.wrapLines, normalizeWs, trimWs, collapseWsAux,
      splitSp, splitCh, splitChAux, Part000.wrapWordsAux, Part000.lineWidth, joinSpace, lenW,
      Part000.renderLines, Part000.drawLine]
  rw [h]
  norm_num

/-- **C9 (amended).** On input that is empty after whitespace
normalization: `wrapText` of the route produces zero lines for all-space
input (with a positive width limit), while the part_000 `drawJustifiedText`
produces exactly one line — the empty string drawn at the initial cursor
— and advances the cursor by exactly one lineSpacing rather than leaving
it unchanged. -/
theorem c9_empty_normalized (maxWidth fontSize x y lineSpacing : ℚ) (fw : Str → ℚ)
    (t t2 : Str) (h : 0 < maxWidth) (hsp : ∀ c ∈ t, c = ' ')
    (h2 : normalizeWs t2 = []) :
    Routes.wrapText t maxWidth fontSize = [] ∧
    Part000.drawJustifiedText fw t2 x y maxWidth fontSize lineSpacing =
      ([PdfOp.text [] x y fontSize false], y - lineSpacing) := by
  constructor
  · show Routes.wrapTextAux fontSize maxWidth (splitChAux ' ' t []) [] = []
    rw [splitChAux_all_spaces t hsp]
    exact wrapTextAux_replicate_nil fontSize maxWidth h (t.length + 1)
  · show Part000.renderLines fw x maxWidth fontSize lineSpacing
      (Part000.wrapWordsAux fw maxWidth (splitChAux ' ' (normalizeWs t2) []) []) y = _
    rw [h2]
    simp [splitChAux, Part000.wrapWordsAux, Part000.renderLines, Part000.drawLine, joinSpace]

/-- Witness for C9 at the all-space input "  " and the empty input. -/
theorem c9_empty_normalized_witness :
    Routes.wrapText [' ', ' '] 100 10 = [] ∧
    Part000.drawJustifiedText lenW [] 0 100 100 10 14 =
      ([PdfOp.text [] 0 100 10 false], 100 - 14) :=
  c9_empty_normalized 100 10 0 100 14 lenW [' ', ' '] [] (by norm_num) (by simp) rfl

/-- **C7.** With an additive font metric, every justified (non-last,
multi-word) line fills the available width exactly: the right edge of the
placed words equals `x + maxWidth`, i.e. the word widths plus the
distributed gap widths sum to `maxWidth` (exact in ℚ, "within tolerance"
in floats); last lines and single-word lines are drawn left-aligned at
`x` with natural spacing. -/
theorem c7_justified_line_width (fw : Str → ℚ)
    (hadd : ∀ a b : Str, fw (a ++ b) = fw a + fw b)
    (ws : List Str) (h2 : 2 ≤ ws.length) (x y maxWidth fontSize : ℚ) :
    Part000.rightEdge fw (Part000.justifyPositions fw x maxWidth ws) = x + maxWidth ∧
    Part000.drawLine fw x y maxWidth fontSize ws false =
      (Part000.justifyPositions fw x maxWidth ws).map
        (fun q => PdfOp.text q.1 q.2 y fontSize false) ∧
    (∀ ws2 : List Str, Part000.drawLine fw x y maxWidth fontSize ws2 true =
      [PdfOp.text (joinSpace ws2) x y fontSize false]) ∧
    (∀ w : Str, Part000.drawLine fw x y maxWidth fontSize [w] false =
      [PdfOp.text (joinSpace [w]) x y fontSize false]) := by
  have hne : ws ≠ [] := by
    intro hcontra
    rw [hcontra] at h2
    simp at h2
  have hlen1 : ((1:ℚ)) ≤ (ws.length : ℚ) - 1 := by
    have : (2:ℚ) ≤ (ws.length : ℚ) := by exact_mod_cast h2
    linarith
  have hnz : ((ws.length : ℚ) - 1) ≠ 0 := by linarith
  refine ⟨?_, ?_, ?_, ?_⟩
  · rw [Part000.justifyPositions,
        rightEdge_placeWords fw (fw [' '] + Part000.extraSpacePerGap fw maxWidth ws) ws x hne,
        Part000.extraSpacePerGap]
    rw [lineWidth_additive fw hadd ws hne]
    field_simp
    ring
  · rw [Part000.drawLine, if_neg]
    intro hcontra
    rcases hcontra with hfalse | hlen
    · exact Bool.false_ne_true hfalse
    · rw [hlen] at h2
      norm_num at h2
  · intro ws2
    rw [Part000.drawLine, if_pos (Or.inl rfl)]
  · intro w
    simp [Part000.drawLine]

/-- Witness for C7: the two-word line "ab c" justified into width 100
under the character-count metric. -/
theorem c7_justified_line_width_witness :
    Part000.rightEdge lenW (Part000.justifyPositions lenW 0 100 [['a', 'b'], ['c']]) = 0 + 100 :=
  (c7_justified_line_width lenW
    (by intro a b; simp [lenW])
    [['a', 'b'], ['c']] (by norm_num) 0 0 100 10).1

/-- A draw-then-drop step emits nothing at or below cursor 70. -/
theorem textThenDrop_skip (s : Str) (size : ℚ) (b : Bool) (drop y : ℚ) (hy : y ≤ 70) :
    Routes.textThenDrop s size b drop y = ([], y - drop) := by
  rw [Routes.textThenDrop, if_neg (not_lt.mpr hy)]

/-- A conditional draw-and-drop step is inert at or below cursor 70. -/
theorem textDropIfRoom_skip (s : Str) (size drop y : ℚ) (hy : y ≤ 70) :
    Routes.textDropIfRoom s size drop y = ([], y) := by
  rw [Routes.textDropIfRoom, if_neg (not_lt.mpr hy)]

/-- The signature-image step is inert at or below cursor 70. -/
theorem sigImageStep_skip (sig : Option Unit) (y : ℚ) (hy : y ≤ 70) :
    Routes.sigImageStep sig y = ([], y) := by
  have h1 : ¬ (sig.isSome = true ∧ y > 130) := by
    rintro ⟨_, hcon⟩
    linarith
  have h2 : ¬ (y > 90) := by intro hcon; linarith
  rw [Routes.sigImageStep, if_neg h1, if_neg h2]

/-- **C10.** The PDF route adds exactly four pages (one cover page and
three content pages) for every proposal record and every combination of
optional images, independent of how much text the inputs produce; and
once the running cursor on the third content page has fallen to 70 or
below, the guarded conclusion/thank-you lines and the whole signature and
contact block draw nothing further (no new page is ever allocated for
them). -/
theorem c10_four_pages_and_guarded_skip :
    (∀ (p : Proposal) (cover : Option (ℚ × ℚ)) (logo sig : Option Unit) (ann : ℚ),
        (Routes.generatePdf p cover logo sig ann).length = 4) ∧
    (∀ (x size step : ℚ) (ls : List Str) (y : ℚ), y ≤ 70 →
        Routes.guardedLines x size step ls y = ([], y)) ∧
    (∀ (sig : Option Unit) (y : ℚ), y ≤ 70 → (Routes.signatureTailOps sig y).1 = []) := by
  refine ⟨?_, ?_, ?_⟩
  · intro p cover logo sig ann
    rfl
  · intro x size step ls
    induction ls with
    | nil => intro y hy; rfl
    | cons l rest ih =>
      intro y hy
      rw [Routes.guardedLines, if_neg (not_lt.mpr hy)]
      exact ih y hy
  · intro sig y hy
    rw [Routes.signatureTailOps,
        textThenDrop_skip _ _ _ _ _ hy]
    simp only
    rw [sigImageStep_skip sig _ (by linarith)]
    simp only
    rw [textThenDrop_skip _ _ _ _ _ (by linarith)]
    simp only
    rw [textThenDrop_skip _ _ _ _ _ (by linarith)]
    simp only
    rw [textDropIfRoom_skip _ _ _ _ (by linarith)]
    simp only
    rw [textDropIfRoom_skip _ _ _ _ (by linarith)]
    simp only
    rw [if_neg (show ¬ ((y - 20 - 15 - 30 : ℚ) > 70) by intro hcon; linarith)]
    simp

/-- Witness for C10 at a concrete proposal, line list and cursor 70. -/
theorem c10_four_pages_and_guarded_skip_witness :
    (Routes.generatePdf p0 none none none 0).length = 4 ∧
    Routes.guardedLines 40 9 12 [['x']] 70 = ([], 70) ∧
    (Routes.signatureTailOps (some ()) 70).1 = [] :=
  ⟨c10_four_pages_and_guarded_skip.1 p0 none none none 0,
   c10_four_pages_and_guarded_skip.2.1 40 9 12 [['x']] 70 (by norm_num),
   c10_four_pages_and_guarded_skip.2.2 (some ()) 70 (by norm_num)⟩

/-- **C5.** Evaluation of the two table renderers (at start y 0, with
blank cell strings — positions do not depend on cell contents): each
draws exactly one border rectangle, C−1 vertical dividers and R−1
horizontal dividers with none below the last row, BUT the border
rectangle sits at x 40 (spanning [40, 460]) while the vertical dividers
sit at 56 plus the cumulative column offsets (176 rather than 40 + 120;
96 rather than 40 + 40) and the horizontal dividers span [56, 476] —
16 points to the right of the border box, protruding past its right
edge. -/
theorem c5_table_divider_misalignment :
    ((Routes.structureTableOps 0 (List.replicate 7 (([], []) : Str × Str))).filter
        PdfOp.isRect).length = 1 ∧
    ((Routes.structureTableOps 0 (List.replicate 7 (([], []) : Str × Str))).filter
        PdfOp.isVertLine).length = 1 ∧
    ((Routes.structureTableOps 0 (List.replicate 7 (([], []) : Str × Str))).filter
        PdfOp.isHorizLine).length = 6 ∧
    ((Routes.cashFlowTableOps 0 (List.replicate 5 (List.replicate 6 ([] : Str)))).filter
        PdfOp.isRect).length = 1 ∧
    ((Routes.cashFlowTableOps 0 (List.replicate 5 (List.replicate 6 ([] : Str)))).filter
        PdfOp.isVertLine).length = 5 ∧
    ((Routes.cashFlowTableOps 0 (List.replicate 5 (List.replicate 6 ([] : Str)))).filter
        PdfOp.isHorizLine).length = 4 ∧
    PdfOp.rect 40 (-126) 420 126 ∈
      Routes.structureTableOps 0 (List.replicate 7 (([], []) : Str × Str)) ∧
    PdfOp.line 176 0 176 (-126) ∈
      Routes.structureTableOps 0 (List.replicate 7 (([], []) : Str × Str)) ∧
    (176 : ℚ) ≠ 40 + 120 ∧
    (Routes.structureTableOps 0 (List.replicate 7 (([], []) : Str × Str))).filter
        PdfOp.isHorizLine =
      [PdfOp.line 56 (-18) 476 (-18), PdfOp.line 56 (-36) 476 (-36),
       PdfOp.line 56 (-54) 476 (-54), PdfOp.line 56 (-72) 476 (-72),
       PdfOp.line 56 (-90) 476 (-90), PdfOp.line 56 (-108) 476 (-108)] ∧
    (56 : ℚ) ≠ 40 ∧ (476 : ℚ) ≠ 40 + 420 ∧
    PdfOp.rect 40 (-90) 420 90 ∈
      Routes.cashFlowTableOps 0 (List.replicate 5 (List.replicate 6 ([] : Str))) ∧
    PdfOp.line 96 0 96 (-90) ∈
      Routes.cashFlowTableOps 0 (List.replicate 5 (List.replicate 6 ([] : Str))) ∧
    (96 : ℚ) ≠ 40 + 40 := by
  have hs : Routes.structureTableOps 0 (List.replicate 7 (([], []) : Str × Str)) =
      [PdfOp.rect 40 (-126) 420 126, PdfOp.line 176 0 176 (-126),
       PdfOp.line 56 (-18) 476 (-18), PdfOp.text [] 61 (-12) 9 true,
       PdfOp.text [] 181 (-12) 9 true,
       PdfOp.line 56 (-36) 476 (-36), PdfOp.text [] 61 (-30) 9 false,
       PdfOp.text [] 181 (-30) 9 false,
       PdfOp.line 56 (-54) 476 (-54), PdfOp.text [] 61 (-48) 9 false,
       PdfOp.text [] 181 (-48) 9 false,
       PdfOp.line 56 (-72) 476 (-72), PdfOp.text [] 61 (-66) 9 false,
       PdfOp.text [] 181 (-66) 9 false,
       PdfOp.line 56 (-90) 476 (-90), PdfOp.text [] 61 (-84) 9 false,
       PdfOp.text [] 181 (-84) 9 false,
       PdfOp.line 56 (-108) 476 (-108), PdfOp.text [] 61 (-102) 9 false,
       PdfOp.text [] 181 (-102) 9 false,
       PdfOp.text [] 61 (-120) 9 false, PdfOp.text [] 181 (-120) 9 false] := by
    iterate 4
      try norm_num [Routes.structureTableOps, Routes.structRowOps]
      try simp [Routes.structRowOps]
  have hc : Routes.cashFlowTableOps 0 (List.replicate 5 (List.replicate 6 ([] : Str))) =
      [PdfOp.rect 40 (-90) 420 90,
       PdfOp.line 96 0 96 (-90), PdfOp.line 171 0 171 (-90), PdfOp.line 246 0 246 (-90),
       PdfOp.line 321 0 321 (-90), PdfOp.line 381 0 381 (-90),
       PdfOp.line 56 (-18) 476 (-18), PdfOp.text [] 59 (-12) 8 true,
       PdfOp.text [] 99 (-12) 8 true, PdfOp.text [] 174 (-12) 8 true,
       PdfOp.text [] 249 (-12) 8 true, PdfOp.text [] 324 (-12) 8 true,
       PdfOp.text [] 384 (-12) 8 true,
       PdfOp.line 56 (-36) 476 (-36), PdfOp.text [] 59 (-30) 8 false,
       PdfOp.text [] 99 (-30) 8 false, PdfOp.text [] 174 (-30) 8 false,
       PdfOp.text [] 249 (-30) 8 false, PdfOp.text [] 324 (-30) 8 false,
       PdfOp.text [] 384 (-30) 8 false,
       PdfOp.line 56 (-54) 476 (-54), PdfOp.text [] 59 (-48) 8 false,
       PdfOp.text [] 99 (-48) 8 false, PdfOp.text [] 174 (-48) 8 false,
       PdfOp.text [] 249 (-48) 8 false, PdfOp.text [] 324 (-48) 8 false,
       PdfOp.text [] 384 (-48) 8 false,
       PdfOp.line 56 (-72) 476 (-72), PdfOp.text [] 59 (-66) 8 false,
       PdfOp.text [] 99 (-66) 8 false, PdfOp.text [] 174 (-66) 8 false,
       PdfOp.text [] 249 (-66) 8 false, PdfOp.text [] 324 (-66) 8 false,
       PdfOp.text [] 384 (-66) 8 false,
       PdfOp.text [] 59 (-84) 8 false, PdfOp.text [] 99 (-84) 8 false,
       PdfOp.text [] 174 (-84) 8 false, PdfOp.text [] 249 (-84) 8 false,
       PdfOp.text [] 324 (-84) 8 false, PdfOp.text [] 384 (-84) 8 false] := by
    iterate 4
      try norm_num [Routes.cashFlowTableOps, Routes.cashRowOps, Routes.cellOps,
        Routes.cashColPositions, Routes.colPositionsAux, Routes.cashColWidths,
        Routes.cashTableWidth]
      try simp [Routes.cashRowOps, Routes.cellOps]
  rw [hs, hc]
  refine ⟨?_, ?_, ?_, ?_, ?_, ?_, ?_, ?_, ?_, ?_, ?_, ?_, ?_, ?_, ?_⟩ <;>
    norm_num [PdfOp.isRect, PdfOp.isVertLine, PdfOp.isHorizLine, List.filter]

/-- `textLinesAt` draws only text. -/
theorem textLinesAt_no_image (x size step : ℚ) :
    ∀ (ls : List Str) (y : ℚ), ∀ op ∈ (Routes.textLinesAt x size step ls y).1,
      op.isImage = false := by
  intro ls
  induction ls with
  | nil =>
    intro y op hop
    simp [Routes.textLinesAt] at hop
  | cons l rest ih =>
    intro y op hop
    simp only [Routes.textLinesAt] at hop
    rcases List.mem_cons.mp hop with heq | hmem
    · rw [heq]; rfl
    · exact ih (y - step) op hmem

/-- `guardedLines` draws only text. -/
theorem guardedLines_no_image (x size step : ℚ) :
    ∀ (ls : List Str) (y : ℚ), ∀ op ∈ (Routes.guardedLines x size step ls y).1,
      op.isImage = false := by
  intro ls
  induction ls with
  | nil =>
    intro y op hop
    simp [Routes.guardedLines] at hop
  | cons l rest ih =>
    intro y op hop
    rw [Routes.guardedLines] at hop
    by_cases hy : y > 70
    · rw [if_pos hy] at hop
      simp only at hop
      rcases List.mem_cons.mp hop with heq | hmem
      · rw [heq]; rfl
      · exact ih (y - step) op hmem
    · rw [if_neg hy] at hop
      exact ih y op hop

/-- `drawHighlights` draws only text. -/
theorem drawHighlights_no_image (maxW : ℚ) :
    ∀ (hs : List Str) (y : ℚ), ∀ op ∈ (Routes.drawHighlights maxW hs y).1,
      op.isImage = false := by
  intro hs
  induction hs with
  | nil =>
    intro y op hop
    simp [Routes.drawHighlights] at hop
  | cons h rest ih =>
    intro y op hop
    simp only [Routes.drawHighlights] at hop
    rcases List.mem_append.mp hop with hmem | hmem
    · exact textLinesAt_no_image 60 10 14 _ y op hmem
    · exact ih _ op hmem

/-- The structure-table row loop draws only lines and text. -/
theorem structRowOps_no_image (startY : ℚ) (total : Nat) :
    ∀ (rows : List (Str × Str)) (i : Nat), ∀ op ∈ Routes.structRowOps startY total i rows,
      op.isImage = false := by
  intro rows
  induction rows with
  | nil =>
    intro i op hop
    simp [Routes.structRowOps] at hop
  | cons row rest ih =>
    intro i op hop
    simp only [Routes.structRowOps] at hop
    rcases List.mem_append.mp hop with hmem | hmem
    · rcases List.mem_append.mp hmem with hmem2 | hmem2
      · by_cases hc : i < total - 1
        · rw [if_pos hc] at hmem2
          rcases List.mem_cons.mp hmem2 with heq | hmem3
          · rw [heq]; rfl
          · simp at hmem3
        · rw [if_neg hc] at hmem2
          simp at hmem2
      · rcases List.mem_cons.mp hmem2 with heq | hmem3
        · rw [heq]; rfl
        · rcases List.mem_cons.mp hmem3 with heq | hmem4
          · rw [heq]; rfl
          · simp at hmem4
    · exact ih (i + 1) op hmem

/-- The structure-table renderer draws only a rectangle, lines and text. -/
theorem structureTableOps_no_image (startY : ℚ) (rows : List (Str × Str)) :
    ∀ op ∈ Routes.structureTableOps startY rows, op.isImage = false := by
  intro op hop
  rw [Routes.structureTableOps] at hop
  rcases List.mem_cons.mp hop with heq | hmem
  · rw [heq]; rfl
  · rcases List.mem_cons.mp hmem with heq | hmem2
    · rw [heq]; rfl
    · exact structRowOps_no_image startY rows.length rows 0 op hmem2

/-- Table cells are text. -/
theorem cellOps_no_image (y : ℚ) (bold : Bool) :
    ∀ (cs : List Str) (ps : List ℚ), ∀ op ∈ Routes.cellOps y bold cs ps,
      op.isImage = false := by
  intro cs
  induction cs with
  | nil =>
    intro ps op hop
    simp [Routes.cellOps] at hop
  | cons c rest ih =>
    intro ps op hop
    cases ps with
    | nil => simp [Routes.cellOps] at hop
    | cons px ps2 =>
      simp only [Routes.cellOps] at hop
      rcases List.mem_cons.mp hop with heq | hmem
      · rw [heq]; rfl
      · exact ih ps2 op hmem

/-- The cash-flow row loop draws only lines and text. -/
theorem cashRowOps_no_image (tableTop : ℚ) (total : Nat) :
    ∀ (rows : List (List Str)) (i : Nat), ∀ op ∈ Routes.cashRowOps tableTop total i rows,
      op.isImage = false := by
  intro rows
  induction rows with
  | nil =>
    intro i op hop
    simp [Routes.cashRowOps] at hop
  | cons row rest ih =>
    intro i op hop
    simp only [Routes.cashRowOps] at hop
    rcases List.mem_append.mp hop with hmem | hmem
    · rcases List.mem_append.mp hmem with hmem2 | hmem2
      · by_cases hc : i < total - 1
        · rw [if_pos hc] at hmem2
          rcases List.mem_cons.mp hmem2 with heq | hmem3
          · rw [heq]; rfl
          · simp at hmem3
        · rw [if_neg hc] at hmem2
          simp at hmem2
      · exact cellOps_no_image _ _ row Routes.cashColPositions op hmem2
    · exact ih (i + 1) op hmem

/-- The cash-flow table renderer draws only a rectangle, lines and text. -/
theorem cashFlowTableOps_no_image (tableTop : ℚ) (rows : List (List Str)) :
    ∀ op ∈ Routes.cashFlowTableOps tableTop rows, op.isImage = false := by
  intro op hop
  rw [Routes.cashFlowTableOps] at hop
  rcases List.mem_cons.mp hop with heq | hmem
  · rw [heq]; rfl
  · rcases List.mem_append.mp hmem with hmem2 | hmem2
    · rcases List.mem_map.mp hmem2 with ⟨px, _, heq⟩
      rw [← heq]; rfl
    · exact cashRowOps_no_image tableTop rows.length rows 0 op hmem2

/-- A draw-then-drop step emits only text. -/
theorem textThenDrop_no_image (s : Str) (size : ℚ) (b : Bool) (drop y : ℚ) :
    ∀ op ∈ (Routes.textThenDrop s size b drop y).1, op.isImage = false := by
  intro op hop
  rw [Routes.textThenDrop] at hop
  by_cases hy : y > 70
  · rw [if_pos hy] at hop
    rcases List.mem_singleton.mp hop with heq
    rw [heq]; rfl
  · rw [if_neg hy] at hop
    simp at hop

/-- A conditional draw-and-drop step emits only text. -/
theorem textDropIfRoom_no_image (s : Str) (size drop y : ℚ) :
    ∀ op ∈ (Routes.textDropIfRoom s size drop y).1, op.isImage = false := by
  intro op hop
  rw [Routes.textDropIfRoom] at hop
  by_cases hy : y > 70
  · rw [if_pos hy] at hop
    rcases List.mem_singleton.mp hop with heq
    rw [heq]; rfl
  · rw [if_neg hy] at hop
    simp at hop

/-- With no signature image supplied, the signature-image step emits no
operation at all. -/
theorem sigImageStep_none_no_image (y : ℚ) :
    ∀ op ∈ (Routes.sigImageStep none y).1, op.isImage = false := by
  intro op hop
  rw [Routes.sigImageStep] at hop
  rw [if_neg (by simp : ¬ ((Option.none : Option Unit).isSome = true ∧ y > 130))] at hop
  by_cases hy : y > 90
  · rw [if_pos hy] at hop
    simp at hop
  · rw [if_neg hy] at hop
    simp at hop

/-- With no signature image supplied, the signature/contact block draws
only text. -/
theorem signatureTailOps_none_no_image (y : ℚ) :
    ∀ op ∈ (Routes.signatureTailOps none y).1, op.isImage = false := by
  intro op hop
  rw [Routes.signatureTailOps] at hop
  simp only [List.mem_append] at hop
  rcases hop with ((((((h | h) | h) | h) | h) | h) | h)
  · exact textThenDrop_no_image _ _ _ _ _ op h
  · exact sigImageStep_none_no_image _ op h
  · exact textThenDrop_no_image _ _ _ _ _ op h
  · exact textThenDrop_no_image _ _ _ _ _ op h
  · exact textDropIfRoom_no_image _ _ _ _ op h
  · exact textDropIfRoom_no_image _ _ _ _ op h
  · by_cases hy : (Routes.textDropIfRoom (s2c "Email: lance@opianfsgroup.com") 9 15
        (Routes.textDropIfRoom (s2c "Tel: 081 323 4297") 9 15
          (Routes.textThenDrop (s2c "CEO") 10 false 30
            (Routes.textThenDrop (s2c "Lance E Heynes") 10 true 15
              (Routes.sigImageStep none
                (Routes.textThenDrop (s2c "Kind Regards") 10 false 20 y).2).2).2).2).2).2 > 70
    · rw [if_pos hy] at h
      rcases List.mem_singleton.mp h with heq
      rw [heq]; rfl
    · rw [if_neg hy] at h
      simp at h

/-- Concatenation preserves image-freeness. -/
theorem no_image_append {a b : List PdfOp}
    (ha : ∀ op ∈ a, PdfOp.isImage op = false) (hb : ∀ op ∈ b, PdfOp.isImage op = false) :
    ∀ op ∈ a ++ b, PdfOp.isImage op = false := by
  intro op hop
  rcases List.mem_append.mp hop with h | h
  · exact ha op h
  · exact hb op h

/-- Content page 1 contains no image operation. -/
theorem page1Ops_no_image (p : Proposal) (proj : Routes.Projections) (ann : ℚ) :
    ∀ op ∈ Routes.page1Ops p proj ann, PdfOp.isImage op = false := by
  simp only [Routes.page1Ops]
  repeat' apply no_image_append
  all_goals
    first
      | exact textLinesAt_no_image _ _ _ _ _
      | exact drawHighlights_no_image _ _ _
      | (intro op hop; fin_cases hop <;> rfl)

/-- Content page 2 contains no image operation. -/
theorem page2Ops_no_image (p : Proposal) (proj : Routes.Projections) (ann : ℚ) :
    ∀ op ∈ Routes.page2Ops p proj ann, PdfOp.isImage op = false := by
  simp only [Routes.page2Ops]
  repeat' apply no_image_append
  all_goals
    first
      | exact textLinesAt_no_image _ _ _ _ _
      | exact structureTableOps_no_image _ _
      | exact cashFlowTableOps_no_image _ _
      | (intro op hop; fin_cases hop <;> rfl)

/-- A guarded single text line contains no image operation. -/
theorem ite_text_no_image {c : Prop} [inst : Decidable c] {s : Str} {x y size : ℚ} {b : Bool} :
    ∀ op ∈ (if c then [PdfOp.text s x y size b] else ([] : List PdfOp)),
      PdfOp.isImage op = false := by
  intro op hop
  split at hop
  · rcases List.mem_singleton.mp hop with heq
    rw [heq]; rfl
  · simp at hop

set_option maxHeartbeats 2000000 in
/-- With no signature image, content page 3 contains no image operation. -/
theorem page3Ops_none_no_image (p : Proposal) (proj : Routes.Projections) :
    ∀ op ∈ Routes.page3Ops p proj none, PdfOp.isImage op = false := by
  simp only [Routes.page3Ops, Routes.page3Tail]
  repeat' apply no_image_append
  all_goals
    first
      | exact textLinesAt_no_image _ _ _ _ _
      | exact guardedLines_no_image _ _ _ _ _
      | exact signatureTailOps_none_no_image _
      | exact textThenDrop_no_image _ _ _ _ _
      | exact textDropIfRoom_no_image _ _ _ _
      | exact sigImageStep_none_no_image _
      | exact ite_text_no_image
      | (intro op hop; fin_cases hop <;> rfl)

/-- **C8.** With all three optional images missing, document generation
still completes: the result is a non-empty four-page document whose cover
page is exactly the text-only company header block, and no page anywhere
contains an image operation (logo and signature decorations are simply
omitted). The non-empty page list serializes to a non-empty byte buffer
in `pdf-lib`. -/
theorem c8_degraded_generation (p : Proposal) (ann : ℚ) :
    Routes.generatePdf p none none none ann ≠ [] ∧
    (Routes.generatePdf p none none none ann).length = 4 ∧
    (Routes.generatePdf p none none none ann).head? = some ⟨Routes.textOnlyCoverOps⟩ ∧
    ∀ pg ∈ Routes.generatePdf p none none none ann, ∀ op ∈ pg.ops, op.isImage = false := by
  refine ⟨by simp [Routes.generatePdf], rfl, rfl, ?_⟩
  intro pg hpg
  rw [Routes.generatePdf] at hpg
  simp only [List.mem_cons, List.not_mem_nil, or_false] at hpg
  rcases hpg with h | h | h | h
  · rw [h]
    intro op hop
    fin_cases hop <;> rfl
  · rw [h]
    exact no_image_append (page1Ops_no_image p _ ann) (by intro op hop; fin_cases hop <;> rfl)
  · rw [h]
    exact no_image_append (page2Ops_no_image p _ ann) (by intro op hop; fin_cases hop <;> rfl)
  · rw [h]
    exact no_image_append (page3Ops_none_no_image p _) (by intro op hop; fin_cases hop <;> rfl)
